import Mathlib

/-!
Shallow embedding of the planning core of the `agentz` repository
(`src/models/planning.py`, `src/planning/specialized_agents.py`,
`src/planning/context_helper.py`, `src/planning/router.py`,
`src/planning/aggregator.py`, `src/planning/orchestrator.py`).

Conventions used throughout:
* Python strings are Lean `String`s (both indexed by Unicode code points,
  so `len`/slicing agree with `String.length`/`String.take`).
* Python `int` is `Int`; list indices stay `Int` where the source type is
  `List[int]`.
* Exceptions are modelled with `Except String`; an executor (an
  `Agent.run` call) is an oracle `AgentInstance → String → Except String String`,
  and the planning service is an oracle `String → Except String Plan`.
* Python's `sorted` (a stable sort) is modelled with `List.mergeSort`,
  which is also stable.
* Executor invocations, planner calls and Scheduler/Aggregator calls are
  additionally recorded in ghost observation values (invocation lists and
  a `Trace`), so that "X was never invoked" claims are statable.
-/

/-- `AgentEnum` from `src/models/planning.py` (a `str` enum). -/
inductive AgentEnum where
  | code_agent
  | weather_agent
  | search_agent
  | general_agent
  | context_agent
  | default_agent
deriving DecidableEq, Repr

/-- The `.value` string of each `AgentEnum` member (`src/models/planning.py`). -/
def AgentEnum.value : AgentEnum → String
  | .code_agent => "code_agent"
  | .weather_agent => "weather_agent"
  | .search_agent => "search_agent"
  | .general_agent => "general_agent"
  | .context_agent => "context_agent"
  | .default_agent => "default_agent"

/-- `SubTask` from `src/models/planning.py`. -/
structure SubTask where
  task_details : String
  assigned_agent : AgentEnum
  priority : Int := 0
  dependencies : List Int := []
deriving DecidableEq, Repr

/-- `Plan` from `src/models/planning.py`. -/
structure Plan where
  main_task : String
  subtasks : List SubTask
  is_greeting : Bool := false
  requires_iteration : Bool := false
deriving DecidableEq, Repr

/-- `TaskResult` from `src/planning/router.py`. -/
structure TaskResult where
  task : SubTask
  result : String
  agent_type : AgentEnum
  success : Bool
  error : Option String := none
deriving DecidableEq, Repr

/-- The four concrete agent instances built in
`src/planning/specialized_agents.py` (`_get_code_agent`, `_get_weather_agent`,
`_get_search_agent`, `_get_general_agent`).  Which instance runs is all the
claims observe, so an instance is just its identity. -/
inductive AgentInstance where
  | code
  | weather
  | search
  | general
deriving DecidableEq, Repr

/-- `get_general_agent` from `src/planning/specialized_agents.py`. -/
def get_general_agent : AgentInstance := AgentInstance.general

/-- The `_agent_registry` dict from `src/planning/specialized_agents.py`
(lines 148-154): lookup returns `none` exactly when the key is absent from
the dict.  `CONTEXT_AGENT` has no binding. -/
def _agent_registry : AgentEnum → Option AgentInstance
  | .code_agent => some .code
  | .weather_agent => some .weather
  | .search_agent => some .search
  | .general_agent => some .general
  | .default_agent => some .general
  | .context_agent => none

/-- `get_agent_by_type` from `src/planning/specialized_agents.py`
(lines 157-171): registry lookup with the General agent as fallback for any
type not in the registry. -/
def get_agent_by_type (agent_type : AgentEnum) : AgentInstance :=
  match _agent_registry agent_type with
  | none => get_general_agent
  | some a => a

/-- The Python sort key `lambda t: (-t.priority, len(t.dependencies))`
used by `TaskRouter._sort_tasks` (`src/planning/router.py` line 127). -/
def task_key (t : SubTask) : Int × Nat := (-t.priority, t.dependencies.length)

/-- Lexicographic `≤` on the Python tuple key `(-priority, len(dependencies))`. -/
def key_le (x y : Int × Nat) : Bool :=
  decide (x.1 < y.1) || (x.1 == y.1 && decide (x.2 ≤ y.2))

/-- Comparator corresponding to Python's ascending comparison of sort keys. -/
def task_le (a b : SubTask) : Bool := key_le (task_key a) (task_key b)

/-- `TaskRouter._sort_tasks` (`src/planning/router.py` lines 105-131):
`sorted(tasks, key=lambda t: (-t.priority, len(t.dependencies)))`.
Python's `sorted` is a stable ascending sort by key; `List.mergeSort` is the
same stable sort with comparator `task_le`.  There is no dependency
validation and no topological sort (the source marks that as a TODO). -/
def sort_tasks (tasks : List SubTask) : List SubTask := tasks.mergeSort task_le

/-- One part of a `pydantic_ai` `ModelMessage`, restricted to what
`format_history_for_context_agent` distinguishes: a `UserPromptPart`, a
`SystemPromptPart` (skipped), or any other part carrying a string
`content` attribute. -/
inductive MessagePart where
  | user (content : String)
  | system (content : String)
  | text (content : String)
deriving DecidableEq, Repr

/-- A `pydantic_ai` `ModelMessage`: a list of parts. -/
structure ModelMessage where
  parts : List MessagePart
deriving DecidableEq, Repr

/-- Python's `sep.join(parts)`. -/
def str_join (sep : String) : List String → String
  | [] => ""
  | [s] => s
  | s :: rest => s ++ sep ++ str_join sep rest

/-- The user inputs collected by the part loop of
`format_history_for_context_agent` (`src/planning/context_helper.py`). -/
def user_inputs_of (m : ModelMessage) : List String :=
  m.parts.filterMap fun p =>
    match p with
    | .user c => some c
    | _ => none

/-- The assistant responses collected by the part loop of
`format_history_for_context_agent`: system parts are skipped, other parts
contribute their string content. -/
def assistant_responses_of (m : ModelMessage) : List String :=
  m.parts.filterMap fun p =>
    match p with
    | .text c => some c
    | _ => none

/-- The message loop of `format_history_for_context_agent`
(`src/planning/context_helper.py` lines 29-75): one numbered block per
message that contains at least one user input, with the assistant response
truncated to 1000 characters. -/
def format_turns : Nat → List ModelMessage → List String
  | _, [] => []
  | turn, m :: rest =>
    let ui := user_inputs_of m
    if ui.isEmpty then
      format_turns turn rest
    else
      let turn1 := turn + 1
      let responses := assistant_responses_of m
      let answer :=
        if responses.isEmpty then
          "助手：（已响应，但内容无法提取）"
        else
          let rt := str_join "\n" responses
          let rt := if rt.length > 1000 then rt.take 1000 ++ "\n...（内容已截断）" else rt
          "助手：" ++ rt
      ("第 " ++ toString turn1 ++ " 轮对话：") ::
        ("用户：" ++ str_join " " ui) :: answer :: "" :: format_turns turn1 rest

/-- `format_history_for_context_agent` from `src/planning/context_helper.py`:
`None` or an empty history yields the fixed placeholder; a history in which
no message has a user input yields the unrecognized-format notice. -/
def format_history_for_context_agent (message_history : Option (List ModelMessage)) : String :=
  match message_history with
  | none => "暂无历史记录。"
  | some [] => "暂无历史记录。"
  | some ms =>
    let formatted_parts := format_turns 0 ms
    if formatted_parts.isEmpty then "历史记录为空或格式无法识别。"
    else str_join "\n" formatted_parts

/-- The `Deps` dataclass shared by `src/planning/specialized_agents.py`
(lines 29-33) and `src/server.py`: its only field is `client` (an HTTP
client, opaque here). -/
structure Deps where
  client : Unit
deriving DecidableEq, Repr

/-- The Python attribute access `deps.message_history` performed by
`TaskRouter.execute_plan` (`src/planning/router.py` line 70).  The `Deps`
dataclass declares only the field `client` and no caller ever attaches a
`message_history` attribute, so this lookup raises `AttributeError`. -/
def Deps.message_history_attr (_ : Deps) : Except String (List ModelMessage) :=
  .error "'Deps' object has no attribute 'message_history'"

/-- An executor oracle: the outcome of `agent.run(text)` for each agent
instance and dispatch text (`Except.error` models a raised exception whose
`str` is the payload). -/
abbrev ExecOracle := AgentInstance → String → Except String String

/-- The loop body of `TaskRouter.execute_plan` (`src/planning/router.py`
lines 60-103) for a single task: resolve the agent, build the dispatch
text (for `CONTEXT_AGENT` this first reads `deps.message_history`, which
raises), run the executor, and convert any exception into a failed
`TaskResult`.  The second component is the ghost list of executor
invocations `(agent, dispatch text)` the task caused. -/
def failure_record (task : SubTask) (e : String) : TaskResult :=
  { task := task, result := "", agent_type := task.assigned_agent,
    success := false, error := some ("执行任务失败: " ++ e) }

/-- The dispatch text built by `TaskRouter.execute_plan` for one task:
the task's `task_details`, except that for `CONTEXT_AGENT` the formatted
history is appended — but building it first evaluates
`deps.message_history`, which raises (`Except.error`). -/
def dispatch_text (deps : Deps) (task : SubTask) : Except String String :=
  if task.assigned_agent = AgentEnum.context_agent then
    match deps.message_history_attr with
    | .error e => .error e
    | .ok mh =>
      .ok (task.task_details ++ "\n\n对话历史记录：\n" ++
        format_history_for_context_agent (some mh))
  else
    .ok task.task_details

def run_subtask (exec : ExecOracle) (deps : Deps) (task : SubTask) :
    TaskResult × List (AgentInstance × String) :=
  let agent := get_agent_by_type task.assigned_agent
  match dispatch_text deps task with
  | .error e => (failure_record task e, [])
  | .ok text =>
    match exec agent text with
    | .ok out =>
      ({ task := task, result := out, agent_type := task.assigned_agent,
         success := true, error := none }, [(agent, text)])
    | .error e => (failure_record task e, [(agent, text)])

/-- The `for task in sorted_tasks` loop of `TaskRouter.execute_plan`:
results are appended in run order; the second component collects all
executor invocations in order. -/
def run_tasks (exec : ExecOracle) (deps : Deps) :
    List SubTask → List TaskResult × List (AgentInstance × String)
  | [] => ([], [])
  | t :: rest =>
    let head := run_subtask exec deps t
    let tail := run_tasks exec deps rest
    (head.1 :: tail.1, head.2 ++ tail.2)

/-- `TaskRouter.execute_plan` (`src/planning/router.py` lines 33-103):
greeting plans and empty subtask lists return no results; otherwise every
task of `_sort_tasks(plan.subtasks)` is run in order, appending one
`TaskResult` per task, with per-task exceptions recorded and never fatal.
The second component is the ghost list of executor invocations. -/
def execute_plan (exec : ExecOracle) (deps : Deps) (plan : Plan) :
    List TaskResult × List (AgentInstance × String) :=
  if plan.is_greeting then ([], [])
  else if plan.subtasks.isEmpty then ([], [])
  else run_tasks exec deps (sort_tasks plan.subtasks)

/-- Python's `str.replace("_", " ")` for the single-character pattern `_`. -/
def py_replace_underscore (s : String) : String :=
  String.mk (s.data.map fun c => if c = '_' then ' ' else c)

def py_title_go : Bool → List Char → List Char
  | _, [] => []
  | prevCased, c :: cs =>
    (if prevCased then c.toLower else c.toUpper) :: py_title_go c.isAlpha cs

/-- Python's `str.title()` on the ASCII agent names: the first letter of
each word is uppercased, later letters lowercased. -/
def py_title (s : String) : String := String.mk (py_title_go false s.data)

/-- The numbered per-result blocks of `ResultAggregator.aggregate`
(`src/planning/aggregator.py` lines 44-59), with `enumerate(results, 1)`. -/
def result_blocks : Nat → List TaskResult → List String
  | _, [] => []
  | i, r :: rest =>
    let agent_name := py_title (py_replace_underscore r.agent_type.value)
    let head := "### " ++ toString i ++ ". [" ++ agent_name ++ "] " ++ r.task.task_details
    let block :=
      if r.success then
        [head, "✅ 执行成功", r.result ++ "\n"]
      else
        match r.error with
        | some e => [head, "❌ 执行失败", "错误：" ++ e ++ "\n"]
        | none => [head, "❌ 执行失败", "\n"]
    block ++ result_blocks (i + 1) rest

/-- The count `sum(1 for r in results if r.success)` of
`ResultAggregator.aggregate`. -/
def success_count (results : List TaskResult) : Nat :=
  (results.filter fun r => r.success).length

/-- The summary line appended by `ResultAggregator.aggregate`
(`src/planning/aggregator.py` lines 61-70). -/
def summary_line (results : List TaskResult) : String :=
  let fail_count := results.length - success_count results
  if fail_count > 0 then
    "\n---\n**总结**：共 " ++ toString results.length ++ " 个子任务，成功 " ++
      toString (success_count results) ++ " 个，失败 " ++ toString fail_count ++ " 个。"
  else
    "\n---\n**总结**：所有 " ++ toString results.length ++ " 个子任务执行成功。"

/-- `ResultAggregator.aggregate` (`src/planning/aggregator.py` lines 19-72):
empty results give a fixed one-line notice; otherwise heading, numbered
blocks, and the summary line are joined with `"\n".join(...)`. -/
def aggregate (main_task : String) (results : List TaskResult) : String :=
  if results.isEmpty then
    "任务 '" ++ main_task ++ "' 没有需要执行的子任务。"
  else
    str_join "\n"
      (("## 任务：" ++ main_task ++ "\n") :: (result_blocks 1 results ++ [summary_line results]))

/-- A planning-service oracle: the outcome of `create_plan(user_input, ...)`
for each current input string (`Except.error` models a raised exception). -/
abbrev PlannerOracle := String → Except String Plan

/-- Ghost observation record for one `PlanningOrchestrator.execute` run:
how often the planning service, the Scheduler (`TaskRouter.execute_plan`)
and the Aggregator were called, and every executor invocation. -/
structure Trace where
  plannerCalls : Nat := 0
  schedulerCalls : Nat := 0
  aggregatorCalls : Nat := 0
  executorCalls : List (AgentInstance × String) := []
deriving DecidableEq, Repr

/-- The `while iteration < max_iterations` loop of
`PlanningOrchestrator.execute` (`src/planning/orchestrator.py` lines 50-98),
with the remaining round budget as fuel.  Each round: one planning-service
call (exceptions become the round's error-string answer); greeting plans are
answered directly by the General agent (`_handle_greeting`); otherwise the
Scheduler then the Aggregator run, and the loop either returns the round
result or folds it into the next round's input. -/
def orchestrate_go (planner : PlannerOracle) (exec : ExecOracle) (deps : Deps) :
    String → Nat → Trace → String × Trace
  | _, 0, tr => ("执行完成", tr)
  | input, fuel + 1, tr =>
    let tr1 := { tr with plannerCalls := tr.plannerCalls + 1 }
    match planner input with
    | .error e => ("执行 Planning 流程时发生错误：" ++ e, tr1)
    | .ok plan =>
      if plan.is_greeting then
        let tr2 := { tr1 with
          executorCalls := tr1.executorCalls ++ [(get_general_agent, plan.main_task)] }
        match exec get_general_agent plan.main_task with
        | .ok out => (out, tr2)
        | .error e => ("执行 Planning 流程时发生错误：" ++ e, tr2)
      else
        let ran := execute_plan exec deps plan
        let final_result := aggregate plan.main_task ran.1
        let tr2 := { tr1 with
          schedulerCalls := tr1.schedulerCalls + 1,
          aggregatorCalls := tr1.aggregatorCalls + 1,
          executorCalls := tr1.executorCalls ++ ran.2 }
        if !plan.requires_iteration || fuel == 0 then
          (final_result, tr2)
        else
          orchestrate_go planner exec deps
            (input ++ "\n\n当前执行结果：" ++ final_result ++ "\n请根据结果调整计划。")
            fuel tr2

/-- `PlanningOrchestrator.execute`: run the round loop with the full
`max_iterations` budget and an empty trace; the answer component is always
a `String` (the source catches every pipeline exception inside the loop). -/
def orchestrate (planner : PlannerOracle) (exec : ExecOracle) (deps : Deps)
    (user_input : String) (max_iterations : Nat) : String × Trace :=
  orchestrate_go planner exec deps user_input max_iterations {}

/-- Comparator written from the spec's words for the run order
("priority descending, with ties broken by ascending original index"),
over index-tagged tasks.  This is a comparison definition for the claim,
not code of the repository. -/
def spec_claim_le (a b : Nat × SubTask) : Bool :=
  decide (b.2.priority < a.2.priority) ||
    (a.2.priority == b.2.priority && decide (a.1 ≤ b.1))

/-- Run order written from the spec's words: sort the index-tagged tasks by
priority descending with ties broken by ascending original index. -/
def spec_claim_order (tasks : List SubTask) : List SubTask :=
  (tasks.enum.mergeSort spec_claim_le).map fun x => x.2

/-- The comparator on index-tagged tasks that the code's order actually
realises: priority descending, then ascending dependency-list length, then
ascending original index. -/
def code_order_le (a b : Nat × SubTask) : Bool :=
  decide (b.2.priority < a.2.priority) ||
    (a.2.priority == b.2.priority &&
      (decide (a.2.dependencies.length < b.2.dependencies.length) ||
        (a.2.dependencies.length == b.2.dependencies.length && decide (a.1 ≤ b.1))))

/-! ## Helper lemmas -/

theorem str_join_append_last (sep x : String) :
    ∀ xs : List String, xs ≠ [] → str_join sep (xs ++ [x]) = str_join sep xs ++ sep ++ x
  | [], h => absurd rfl h
  | [a], _ => by simp [str_join]
  | a :: b :: bs, _ => by
    have ih := str_join_append_last sep x (b :: bs) (by simp)
    simp only [List.cons_append, List.append_eq, str_join] at ih ⊢
    rw [ih]
    simp [String.append_assoc]

theorem length_filter_not (p : TaskResult → Bool) (l : List TaskResult) :
    (l.filter fun r => !p r).length = l.length - (l.filter p).length := by
  induction l with
  | nil => simp
  | cons a l ih =>
    by_cases h : p a <;>
      simp [List.filter_cons, h, ih, Nat.succ_sub, List.length_filter_le]

theorem run_tasks_length (exec : ExecOracle) (deps : Deps) (ts : List SubTask) :
    (run_tasks exec deps ts).1.length = ts.length := by
  induction ts with
  | nil => simp [run_tasks]
  | cons t ts ih => simp [run_tasks, ih]

theorem run_tasks_getElem (exec : ExecOracle) (deps : Deps) (ts : List SubTask) (i : Nat) :
    (run_tasks exec deps ts).1[i]? = (ts[i]?).map fun t => (run_subtask exec deps t).1 := by
  induction ts generalizing i with
  | nil => simp [run_tasks]
  | cons t ts ih =>
    cases i with
    | zero => simp [run_tasks]
    | succ n => simp [run_tasks, ih]

theorem enumLE_task_le_eq_code_order_le (x y : Nat × SubTask) :
    List.enumLE task_le x y = code_order_le x y := by
  rcases x with ⟨i, a⟩
  rcases y with ⟨j, b⟩
  rw [Bool.eq_iff_iff]
  simp only [List.enumLE, code_order_le, task_le, key_le, task_key]
  split <;> rename_i h1
  · split <;> rename_i h2
    · simp at h1 h2 ⊢
      omega
    · simp at h1 h2 ⊢
      omega
  · simp at h1 ⊢
    omega

theorem run_subtask_task (exec : ExecOracle) (deps : Deps) (t : SubTask) :
    ((run_subtask exec deps t).1).task = t := by
  simp only [run_subtask]
  rcases h : dispatch_text deps t with e | txt
  · simp [h, failure_record]
  · rcases h2 : exec (get_agent_by_type t.assigned_agent) txt with e | out
    · simp [h, h2, failure_record]
    · simp [h, h2]

theorem run_subtask_noncontext_error (exec : ExecOracle) (deps : Deps) (t : SubTask)
    (e : String) (hctx : t.assigned_agent ≠ AgentEnum.context_agent)
    (he : exec (get_agent_by_type t.assigned_agent) t.task_details = Except.error e) :
    (run_subtask exec deps t).1 =
      { task := t, result := "", agent_type := t.assigned_agent,
        success := false, error := some ("执行任务失败: " ++ e) } := by
  simp only [run_subtask, dispatch_text, if_neg hctx, he, failure_record]

theorem execute_plan_eq_run_tasks (exec : ExecOracle) (deps : Deps) (plan : Plan)
    (hg : plan.is_greeting = false) (hs : plan.subtasks ≠ []) :
    execute_plan exec deps plan = run_tasks exec deps (sort_tasks plan.subtasks) := by
  simp [execute_plan, hg, hs]

theorem aggregate_eq_join (main : String) (results : List TaskResult) (h : results ≠ []) :
    aggregate main results =
      str_join "\n" (("## 任务：" ++ main ++ "\n") :: result_blocks 1 results) ++ "\n" ++
        summary_line results := by
  have hne : results.isEmpty = false := by simp [List.isEmpty_iff, h]
  rw [aggregate, if_neg (by simp [hne])]
  rw [show ("## 任务：" ++ main ++ "\n") :: (result_blocks 1 results ++ [summary_line results]) =
      (("## 任务：" ++ main ++ "\n") :: result_blocks 1 results) ++ [summary_line results] from by simp]
  rw [str_join_append_last "\n" (summary_line results) _ (by simp)]

theorem orchestrate_go_plannerCalls_le (planner : PlannerOracle) (exec : ExecOracle)
    (deps : Deps) :
    ∀ (fuel : Nat) (input : String) (tr : Trace),
      (orchestrate_go planner exec deps input fuel tr).2.plannerCalls ≤
        tr.plannerCalls + fuel := by
  intro fuel
  induction fuel with
  | zero => intro input tr; simp [orchestrate_go]
  | succ n ih =>
    intro input tr
    simp only [orchestrate_go]
    split
    · show tr.plannerCalls + 1 ≤ tr.plannerCalls + (n + 1)
      omega
    · split
      · split
        · show tr.plannerCalls + 1 ≤ tr.plannerCalls + (n + 1)
          omega
        · show tr.plannerCalls + 1 ≤ tr.plannerCalls + (n + 1)
          omega
      · split
        · show tr.plannerCalls + 1 ≤ tr.plannerCalls + (n + 1)
          omega
        · refine le_trans (ih _ _) ?_
          show tr.plannerCalls + 1 + n ≤ tr.plannerCalls + (n + 1)
          omega

/-! ## Claim theorems -/

/-- C1: the claim says a Plan with a self-dependency is rejected before any
executor call (zero invocations).  Evaluating the code at such a plan shows
the opposite: `_sort_tasks` performs no validation, the sole subtask —
which depends on its own index 0 — is executed normally, the executor is
invoked once, and one `TaskResult` is produced. -/
theorem router_runs_self_dependency_plan :
    execute_plan (fun _ _ => Except.ok "done") ⟨()⟩
      { main_task := "m",
        subtasks := [{ task_details := "a", assigned_agent := AgentEnum.code_agent,
                       priority := 0, dependencies := [0] }] } =
    ([{ task := { task_details := "a", assigned_agent := AgentEnum.code_agent,
                  priority := 0, dependencies := [0] },
        result := "done", agent_type := AgentEnum.code_agent,
        success := true, error := none }],
     [(AgentInstance.code, "a")]) := by
  simp [execute_plan, run_tasks, run_subtask, sort_tasks, List.mergeSort,
    dispatch_text, get_agent_by_type, _agent_registry, get_general_agent]

/-- C2: the claim says a task's executor only starts after the TaskResults
of all its dependencies exist.  Evaluating the code on the acyclic,
index-valid plan [task 0 "a" (priority 0), task 1 "b" (priority 5,
depends on 0)] shows task 1's executor is invoked first — before its
dependency has any result — because the order is by priority alone. -/
theorem router_runs_dependent_before_dependency :
    (execute_plan (fun _ _ => Except.ok "done") ⟨()⟩
      { main_task := "m",
        subtasks := [{ task_details := "a", assigned_agent := AgentEnum.general_agent,
                       priority := 0, dependencies := [] },
                     { task_details := "b", assigned_agent := AgentEnum.general_agent,
                       priority := 5, dependencies := [0] }] }).2 =
      [(AgentInstance.general, "b"), (AgentInstance.general, "a")] ∧
    ((execute_plan (fun _ _ => Except.ok "done") ⟨()⟩
      { main_task := "m",
        subtasks := [{ task_details := "a", assigned_agent := AgentEnum.general_agent,
                       priority := 0, dependencies := [] },
                     { task_details := "b", assigned_agent := AgentEnum.general_agent,
                       priority := 5, dependencies := [0] }] }).1.map
        fun r => r.task.task_details) = ["b", "a"] := by
  constructor <;>
    simp [execute_plan, run_tasks, run_subtask, sort_tasks, List.mergeSort,
      dispatch_text, get_agent_by_type, _agent_registry, get_general_agent,
      task_le, key_le, task_key, List.merge]

/-- C3 counterexample: two tasks with equal priority, where the earlier
task has one dependency and the later none.  The spec-claimed order
(priority descending, ties by ascending original index) keeps the original
order, but the code sorts the later task first because its dependency list
is shorter. -/
theorem sort_tasks_tie_break_counterexample :
    sort_tasks
        [{ task_details := "a", assigned_agent := AgentEnum.general_agent,
           priority := 1, dependencies := [1] },
         { task_details := "b", assigned_agent := AgentEnum.general_agent,
           priority := 1, dependencies := [] }] ≠
      spec_claim_order
        [{ task_details := "a", assigned_agent := AgentEnum.general_agent,
           priority := 1, dependencies := [1] },
         { task_details := "b", assigned_agent := AgentEnum.general_agent,
           priority := 1, dependencies := [] }] := by
  have h1 : sort_tasks
      [{ task_details := "a", assigned_agent := AgentEnum.general_agent,
         priority := 1, dependencies := [1] },
       { task_details := "b", assigned_agent := AgentEnum.general_agent,
         priority := 1, dependencies := [] }] =
      [{ task_details := "b", assigned_agent := AgentEnum.general_agent,
         priority := 1, dependencies := [] },
       { task_details := "a", assigned_agent := AgentEnum.general_agent,
         priority := 1, dependencies := [1] }] := by
    simp [sort_tasks, List.mergeSort, task_le, key_le, task_key, List.merge]
  have h2 : spec_claim_order
      [{ task_details := "a", assigned_agent := AgentEnum.general_agent,
         priority := 1, dependencies := [1] },
       { task_details := "b", assigned_agent := AgentEnum.general_agent,
         priority := 1, dependencies := [] }] =
      [{ task_details := "a", assigned_agent := AgentEnum.general_agent,
         priority := 1, dependencies := [1] },
       { task_details := "b", assigned_agent := AgentEnum.general_agent,
         priority := 1, dependencies := [] }] := by
    simp [spec_claim_order, List.mergeSort, spec_claim_le, List.merge, List.enum]
  rw [h1, h2]
  decide

/-- C3 (amended): for every Plan the run order is deterministic (a pure
function of the subtask list) and equals the stable sort of the
index-tagged tasks under `code_order_le`: priority descending, ties broken
by ascending dependency-list length, then by ascending original index. -/
theorem sort_tasks_canonical_order (tasks : List SubTask) :
    sort_tasks tasks = (tasks.enum.mergeSort code_order_le).map fun x => x.2 := by
  have h : List.enumLE task_le = code_order_le := by
    funext x y
    exact enumLE_task_le_eq_code_order_le x y
  rw [sort_tasks, ← List.mergeSort_enum, h]

/-- C4: for every plan the Scheduler actually runs (non-greeting, non-empty
subtasks) and every executor oracle: one TaskResult appears per subtask
even when executors fail; every position of the run order yields a result
for exactly its task; and a failing executor (for a non-Context task, whose
dispatch is its `task_details`) is recorded as `success := false` with the
error message, without removing any other task's result. -/
theorem router_isolates_task_failures (exec : ExecOracle) (deps : Deps) (plan : Plan)
    (hg : plan.is_greeting = false) (hs : plan.subtasks ≠ []) :
    (execute_plan exec deps plan).1.length = plan.subtasks.length ∧
    (∀ (i : Nat) (t : SubTask), (sort_tasks plan.subtasks)[i]? = some t →
      ∃ r : TaskResult, (execute_plan exec deps plan).1[i]? = some r ∧ r.task = t) ∧
    (∀ (i : Nat) (t : SubTask) (e : String), (sort_tasks plan.subtasks)[i]? = some t →
      t.assigned_agent ≠ AgentEnum.context_agent →
      exec (get_agent_by_type t.assigned_agent) t.task_details = Except.error e →
      (execute_plan exec deps plan).1[i]? =
        some { task := t, result := "", agent_type := t.assigned_agent,
               success := false, error := some ("执行任务失败: " ++ e) }) := by
  rw [execute_plan_eq_run_tasks exec deps plan hg hs]
  refine ⟨?_, ?_, ?_⟩
  · rw [run_tasks_length, sort_tasks, List.length_mergeSort]
  · intro i t ht
    refine ⟨(run_subtask exec deps t).1, ?_, run_subtask_task exec deps t⟩
    rw [run_tasks_getElem, ht, Option.map_some']
  · intro i t e ht hctx he
    rw [run_tasks_getElem, ht, Option.map_some',
      run_subtask_noncontext_error exec deps t e hctx he]

theorem router_isolates_task_failures_witness :
    (execute_plan
      (fun _ s => if s = "x" then Except.error "连接超时" else Except.ok "完成") ⟨()⟩
      { main_task := "m",
        subtasks := [{ task_details := "x", assigned_agent := AgentEnum.search_agent },
                     { task_details := "y", assigned_agent := AgentEnum.code_agent }] }).1.length =
      (({ main_task := "m",
          subtasks := [{ task_details := "x", assigned_agent := AgentEnum.search_agent },
                       { task_details := "y", assigned_agent := AgentEnum.code_agent }] } : Plan)).subtasks.length :=
  (router_isolates_task_failures
    (fun _ s => if s = "x" then Except.error "连接超时" else Except.ok "完成") ⟨()⟩
    { main_task := "m",
      subtasks := [{ task_details := "x", assigned_agent := AgentEnum.search_agent },
                   { task_details := "y", assigned_agent := AgentEnum.code_agent }] }
    rfl (by simp)).1

/-- C5: one round of the Orchestrator loop converts a raised planning-service
exception, and a raised exception in the greeting path, into the
descriptive error-string answer `执行 Planning 流程时发生错误：...` —
`orchestrate` always returns a plain `String` answer (the Scheduler and the
Aggregator are total in this embedding: per-task failures are already
recorded inside `execute_plan`). -/
theorem orchestrator_converts_faults_to_error_string (planner : PlannerOracle)
    (exec : ExecOracle) (deps : Deps) (input : String) (fuel : Nat) (tr : Trace) :
    (∀ e : String, planner input = Except.error e →
      (orchestrate_go planner exec deps input (fuel + 1) tr).1 =
        "执行 Planning 流程时发生错误：" ++ e) ∧
    (∀ (plan : Plan) (e : String), planner input = Except.ok plan →
      plan.is_greeting = true →
      exec get_general_agent plan.main_task = Except.error e →
      (orchestrate_go planner exec deps input (fuel + 1) tr).1 =
        "执行 Planning 流程时发生错误：" ++ e) := by
  constructor
  · intro e he
    simp [orchestrate_go, he]
  · intro plan e hp hg he
    simp [orchestrate_go, hp, hg, he]

theorem orchestrator_converts_faults_to_error_string_witness :
    (orchestrate_go (fun _ => Except.error "规划服务不可用")
      (fun _ _ => Except.ok "x") ⟨()⟩ "查天气" 1 {}).1 =
      "执行 Planning 流程时发生错误：规划服务不可用" :=
  (orchestrator_converts_faults_to_error_string (fun _ => Except.error "规划服务不可用")
    (fun _ _ => Except.ok "x") ⟨()⟩ "查天气" 0 {}).1 "规划服务不可用" rfl

/-- C6: (a) with `max_iterations = 1` the planning service is called at most
once; (b) when every produced plan has `requires_iteration = true`, with
`max_iterations = 3` it is called at most 3 times; (c) a round whose plan
has `requires_iteration = false` (and is not a greeting) ends the loop at
once, returning that round's aggregated result after exactly one further
planner call. -/
theorem orchestrator_iteration_budget (planner : PlannerOracle) (exec : ExecOracle)
    (deps : Deps) (input : String) :
    (orchestrate planner exec deps input 1).2.plannerCalls ≤ 1 ∧
    ((∀ (s : String) (p : Plan), planner s = Except.ok p → p.requires_iteration = true) →
      (orchestrate planner exec deps input 3).2.plannerCalls ≤ 3) ∧
    (∀ (s : String) (fuel : Nat) (tr : Trace) (plan : Plan),
      planner s = Except.ok plan → plan.is_greeting = false →
      plan.requires_iteration = false →
      orchestrate_go planner exec deps s (fuel + 1) tr =
        (aggregate plan.main_task (execute_plan exec deps plan).1,
         { tr with
           plannerCalls := tr.plannerCalls + 1,
           schedulerCalls := tr.schedulerCalls + 1,
           aggregatorCalls := tr.aggregatorCalls + 1,
           executorCalls := tr.executorCalls ++ (execute_plan exec deps plan).2 })) := by
  refine ⟨?_, ?_, ?_⟩
  · have h := orchestrate_go_plannerCalls_le planner exec deps 1 input {}
    simpa [orchestrate] using h
  · intro _
    have h := orchestrate_go_plannerCalls_le planner exec deps 3 input {}
    simpa [orchestrate] using h
  · intro s fuel tr plan hp hg hr
    simp [orchestrate_go, hp, hg, hr]

theorem orchestrator_iteration_budget_witness :
    (orchestrate (fun _ => Except.ok { main_task := "统计", subtasks := [] })
      (fun _ _ => Except.ok "x") ⟨()⟩ "统计" 1).2.plannerCalls ≤ 1 ∧
    orchestrate_go (fun _ => Except.ok { main_task := "统计", subtasks := [] })
      (fun _ _ => Except.ok "x") ⟨()⟩ "统计" 1 {} =
      (aggregate "统计" [],
       { plannerCalls := 1,
         schedulerCalls := 1,
         aggregatorCalls := 1,
         executorCalls := [] }) :=
  ⟨(orchestrator_iteration_budget (fun _ => Except.ok { main_task := "统计", subtasks := [] })
      (fun _ _ => Except.ok "x") ⟨()⟩ "统计").1,
   (orchestrator_iteration_budget (fun _ => Except.ok { main_task := "统计", subtasks := [] })
      (fun _ _ => Except.ok "x") ⟨()⟩ "统计").2.2 "统计" 0 {}
      { main_task := "统计", subtasks := [] } rfl rfl rfl⟩

/-- C7: for a round whose plan has `is_greeting = true`, the Orchestrator
never calls the Scheduler or the Aggregator (their call counters are
unchanged), the only executor invocation is the General agent run on the
plan's `main_task`, and the final answer equals that executor's output. -/
theorem orchestrator_greeting_short_circuit (planner : PlannerOracle) (exec : ExecOracle)
    (deps : Deps) (input : String) (fuel : Nat) (tr : Trace) (plan : Plan) (out : String)
    (hp : planner input = Except.ok plan) (hg : plan.is_greeting = true)
    (he : exec get_general_agent plan.main_task = Except.ok out) :
    orchestrate_go planner exec deps input (fuel + 1) tr =
      (out,
       { tr with
         plannerCalls := tr.plannerCalls + 1,
         executorCalls := tr.executorCalls ++ [(get_general_agent, plan.main_task)] }) := by
  simp [orchestrate_go, hp, hg, he]

theorem orchestrator_greeting_short_circuit_witness :
    orchestrate_go
      (fun _ => Except.ok { main_task := "你好", subtasks := [], is_greeting := true })
      (fun _ _ => Except.ok "你好！有什么可以帮你？") ⟨()⟩ "你好" 1 {} =
      ("你好！有什么可以帮你？",
       { plannerCalls := 1,
         schedulerCalls := 0,
         aggregatorCalls := 0,
         executorCalls := [(get_general_agent, "你好")] }) := by
  have h := orchestrator_greeting_short_circuit
    (fun _ => Except.ok { main_task := "你好", subtasks := [], is_greeting := true })
    (fun _ _ => Except.ok "你好！有什么可以帮你？") ⟨()⟩ "你好" 0 {}
    { main_task := "你好", subtasks := [], is_greeting := true }
    "你好！有什么可以帮你？" rfl rfl rfl
  simpa using h

/-- C8: the claim says a Context-capability task is dispatched with its
details plus the formatted history.  Evaluating the code shows that the
`deps.message_history` attribute access raises `AttributeError` (no `Deps`
in the repository has that field), so the task is recorded as a failed
TaskResult with that error and the executor is never invoked (empty
invocation list).  The cited formatter fact itself is true: an empty (or
absent) history formats to the fixed placeholder. -/
theorem router_context_task_raises_attribute_error :
    execute_plan (fun _ _ => Except.ok "ok") ⟨()⟩
      { main_task := "m",
        subtasks := [{ task_details := "列出我们聊过的话题", assigned_agent := AgentEnum.context_agent,
                       priority := 0, dependencies := [] }] } =
    ([{ task := { task_details := "列出我们聊过的话题", assigned_agent := AgentEnum.context_agent,
                  priority := 0, dependencies := [] },
        result := "", agent_type := AgentEnum.context_agent, success := false,
        error := some "执行任务失败: 'Deps' object has no attribute 'message_history'" }],
     []) ∧
    format_history_for_context_agent none = "暂无历史记录。" ∧
    format_history_for_context_agent (some []) = "暂无历史记录。" := by
  refine ⟨?_, rfl, rfl⟩
  simp [execute_plan, run_tasks, run_subtask, sort_tasks, List.mergeSort,
    dispatch_text, Deps.message_history_attr, failure_record,
    get_agent_by_type, _agent_registry, get_general_agent]

set_option maxRecDepth 4000 in
/-- C9 counterexample: for two successful results the aggregate output ends
with `所有 2 个子任务执行成功。` — the word `失败` (and hence a failed
count of 0) appears nowhere in it, contradicting the claim that the summary
reports "2 succeeded and 0 failed". -/
theorem aggregate_two_successes_counterexample :
    aggregate "查询天气并生成脚本"
      [{ task := { task_details := "查询北京天气", assigned_agent := AgentEnum.weather_agent },
         result := "北京：晴", agent_type := AgentEnum.weather_agent, success := true },
       { task := { task_details := "生成脚本", assigned_agent := AgentEnum.code_agent },
         result := "print(1)", agent_type := AgentEnum.code_agent, success := true }] =
      "## 任务：查询天气并生成脚本\n\n### 1. [Weather Agent] 查询北京天气\n✅ 执行成功\n北京：晴\n\n### 2. [Code Agent] 生成脚本\n✅ 执行成功\nprint(1)\n\n\n---\n**总结**：所有 2 个子任务执行成功。" ∧
    ¬ ("失败".data <:+:
      (aggregate "查询天气并生成脚本"
        [{ task := { task_details := "查询北京天气", assigned_agent := AgentEnum.weather_agent },
           result := "北京：晴", agent_type := AgentEnum.weather_agent, success := true },
         { task := { task_details := "生成脚本", assigned_agent := AgentEnum.code_agent },
           result := "print(1)", agent_type := AgentEnum.code_agent, success := true }]).data) := by
  constructor
  · rfl
  · decide

/-- C9 (amended): for every non-empty result list the aggregate output ends
with the summary: when at least one task failed, it reports the total, the
succeeded count, and the failed count; when all tasks succeeded, it reports
the total and that all succeeded (no explicit failed count).  The empty
list gives the fixed one-line notice containing the main task. -/
theorem aggregate_summary_reports (main : String) (results : List TaskResult)
    (h : results ≠ []) :
    ((results.filter fun r => !r.success).length > 0 →
      ∃ q : String, aggregate main results =
        q ++ ("\n---\n**总结**：共 " ++ toString results.length ++ " 个子任务，成功 " ++
          toString (success_count results) ++ " 个，失败 " ++
          toString ((results.filter fun r => !r.success).length) ++ " 个。")) ∧
    ((results.filter fun r => !r.success).length = 0 →
      ∃ q : String, aggregate main results =
        q ++ ("\n---\n**总结**：所有 " ++ toString results.length ++ " 个子任务执行成功。")) ∧
    aggregate main [] = "任务 '" ++ main ++ "' 没有需要执行的子任务。" := by
  have hcount := length_filter_not (fun r => r.success) results
  refine ⟨?_, ?_, by simp [aggregate]⟩
  · intro hf
    refine ⟨str_join "\n" (("## 任务：" ++ main ++ "\n") :: result_blocks 1 results) ++ "\n", ?_⟩
    rw [aggregate_eq_join main results h]
    congr 1
    unfold summary_line success_count
    rw [if_pos (by omega), hcount]
  · intro hf
    refine ⟨str_join "\n" (("## 任务：" ++ main ++ "\n") :: result_blocks 1 results) ++ "\n", ?_⟩
    rw [aggregate_eq_join main results h]
    congr 1
    unfold summary_line success_count
    rw [if_neg (by omega)]

theorem aggregate_summary_reports_witness :
    ∃ q : String,
      aggregate "主任务"
        [{ task := { task_details := "taskX", assigned_agent := AgentEnum.search_agent }, result := "", agent_type := AgentEnum.search_agent, success := false, error := some "timeout" }] =
      q ++ ("\n---\n**总结**：共 " ++ toString
          ([{ task := { task_details := "taskX", assigned_agent := AgentEnum.search_agent }, result := "", agent_type := AgentEnum.search_agent, success := false, error := some "timeout" }] : List TaskResult).length ++ " 个子任务，成功 " ++
        toString (success_count
          [{ task := { task_details := "taskX", assigned_agent := AgentEnum.search_agent }, result := "", agent_type := AgentEnum.search_agent, success := false, error := some "timeout" }]) ++ " 个，失败 " ++
        toString (([{ task := { task_details := "taskX", assigned_agent := AgentEnum.search_agent }, result := "", agent_type := AgentEnum.search_agent, success := false, error := some "timeout" }] : List TaskResult).filter
            fun r => !r.success).length ++ " 个。") :=
  (aggregate_summary_reports "主任务"
    [{ task := { task_details := "taskX", assigned_agent := AgentEnum.search_agent }, result := "", agent_type := AgentEnum.search_agent, success := false, error := some "timeout" }]
    (by simp)).1 (by decide)

/-- C10: capability resolution is total — every `AgentEnum` value resolves
either to the General fallback or to its registry binding — the registry
has no `CONTEXT_AGENT` entry, and `CONTEXT_AGENT` resolves to the same
General agent as `DEFAULT_AGENT`. -/
theorem capability_resolution_total_and_context_defaults :
    (∀ a : AgentEnum,
        get_agent_by_type a = AgentInstance.general ∨
          _agent_registry a = some (get_agent_by_type a)) ∧
    _agent_registry AgentEnum.context_agent = none ∧
    get_agent_by_type AgentEnum.context_agent = get_general_agent ∧
    get_agent_by_type AgentEnum.default_agent = get_general_agent := by
  refine ⟨fun a => ?_, rfl, rfl, rfl⟩
  cases a <;> simp [get_agent_by_type, _agent_registry, get_general_agent]
